import Mathlib

/-!
Shallow embedding, in Lean 4, of the policy-based access control engine of
this repository: the permission scale and security context
(src/security/permission_validator.py), the rule store and decision engine
(src/security/access_rule_manager.py), the role graph
(src/security/role_permissions.py), the audit log
(src/security/audit_logger.py) and the task priority rule chain
(src/planner/task_prioritization.py, src/planner/task_planner.py).

Python dictionaries are modelled as insertion-ordered association lists with
unique keys (lookupKey finds the first binding, eraseKey removes the key,
setKey updates in place or appends, exactly the observable behaviour of a
Python dict).  Python exceptions are modelled by the Except monad over the
PyErr type.  The wall clock and the uuid generator, the only sources of
non-determinism in the translated code, are passed in explicitly.
-/

/-- Python exception kinds raised by the code paths modelled here. -/
inductive PyErr where
  | typeError
  | keyError
  | valueError
  | attributeError
deriving DecidableEq, Repr

/-- First binding of a key in an insertion-ordered dictionary. -/
def lookupKey {α : Type} (l : List (String × α)) (k : String) : Option α :=
  match l with
  | [] => none
  | (k2, v) :: rest => if k2 = k then some v else lookupKey rest k

/-- Removal of a key from a dictionary (Python del d[k]). -/
def eraseKey {α : Type} (l : List (String × α)) (k : String) : List (String × α) :=
  l.filter (fun p => p.1 ≠ k)

/-- Dictionary assignment d[k] = v: update the binding in place when the key
exists (keeping its position, as a Python dict does), append otherwise. -/
def setKey {α : Type} : List (String × α) → String → α → List (String × α)
  | [], k, v => [(k, v)]
  | p :: rest, k, v => if p.1 = k then (k, v) :: rest else p :: setKey rest k v

/-- Decidable equality for Except results, used to evaluate the embedded
functions on concrete inputs. -/
instance {ε α : Type} [DecidableEq ε] [DecidableEq α] : DecidableEq (Except ε α) :=
  fun a b =>
    match a, b with
    | .ok x, .ok y => if h : x = y then .isTrue (by rw [h]) else .isFalse (by simp [h])
    | .error x, .error y => if h : x = y then .isTrue (by rw [h]) else .isFalse (by simp [h])
    | .ok _, .error _ => .isFalse (by simp)
    | .error _, .ok _ => .isFalse (by simp)

/-- Splitting on a single separator character, the behaviour of the Python
str.split calls in the translated code (defined structurally over the
character list so that it evaluates by reduction). -/
def splitCharAux (sep : Char) : List Char → List Char → List String
  | [], cur => [String.mk cur.reverse]
  | c :: rest, cur =>
    if c = sep then String.mk cur.reverse :: splitCharAux sep rest []
    else splitCharAux sep rest (c :: cur)

/-- Python s.split(sep) for a one-character separator. -/
def splitChar (sep : Char) (s : String) : List String :=
  splitCharAux sep s.data []

/-- Numeric value of a decimal digit character. -/
def charDigit? (c : Char) : Option Nat :=
  if '0' ≤ c ∧ c ≤ '9' then some (c.toNat - '0'.toNat) else none

/-- Decimal digit-string parser. -/
def parseNatAux : List Char → Nat → Option Nat
  | [], acc => some acc
  | c :: rest, acc =>
    match charDigit? c with
    | some d => parseNatAux rest (acc * 10 + d)
    | none => none

/-- Parse a non-empty all-digit character list. -/
def parseNatChars (l : List Char) : Option Nat :=
  match l with
  | [] => none
  | _ => parseNatAux l 0

/-- The Python int(s) conversion on the strings the engine feeds it: an
optional minus sign followed by decimal digits; none where int raises
ValueError. -/
def pyInt? (s : String) : Option Int :=
  match s.data with
  | '-' :: rest => (parseNatChars rest).map (fun n => -(n : Int))
  | l => (parseNatChars l).map (fun n => (n : Int))

/-- PermissionLevel from src/security/permission_validator.py lines 11-17:
an integer enum NONE = 0, READ = 1, WRITE = 2, EXECUTE = 3, ADMIN = 4. -/
inductive PermissionLevel where
  | NONE
  | READ
  | WRITE
  | EXECUTE
  | ADMIN
deriving DecidableEq, Repr

/-- Numeric value of a permission level (the .value attribute). -/
def PermissionLevel.val : PermissionLevel → Int
  | .NONE => 0
  | .READ => 1
  | .WRITE => 2
  | .EXECUTE => 3
  | .ADMIN => 4

/-- The PermissionLevel(x) enum call: some level on a valid value,
none where Python raises ValueError. -/
def permissionLevelOfInt (v : Int) : Option PermissionLevel :=
  if v = 0 then some .NONE
  else if v = 1 then some .READ
  else if v = 2 then some .WRITE
  else if v = 3 then some .EXECUTE
  else if v = 4 then some .ADMIN
  else none

/-- Values stored in Python dictionaries that the engine compares for
equality (context snapshots, rule context_conditions, operation details). -/
inductive PyVal where
  | str (s : String)
  | strList (l : List String)
  | int (n : Int)
deriving DecidableEq, Repr

/-- SecurityContext from src/security/permission_validator.py lines 88-102. -/
structure SecurityContext where
  user_id : String
  roles : List String
  session_id : String
  ip_address : String
  timestamp : String
deriving DecidableEq, Repr

/-- SecurityContext.to_dict (permission_validator.py lines 104-112). -/
def SecurityContext.to_dict (c : SecurityContext) : List (String × PyVal) :=
  [ ("user_id", .str c.user_id),
    ("roles", .strList c.roles),
    ("session_id", .str c.session_id),
    ("ip_address", .str c.ip_address),
    ("timestamp", .str c.timestamp) ]

/-- The open conditions dictionary of an access rule, restricted to the key
names the code ever inspects.  Each recognized key is present (some) or
absent (none); extra records the names of any unrecognized keys so that the
Python emptiness test on the dictionary is preserved. -/
structure Conditions where
  time_restriction : Option String
  ip_whitelist : Option (List String)
  ip_blacklist : Option (List String)
  required_roles : Option (List String)
  context_conditions : Option (List (String × PyVal))
  extra : List String
deriving DecidableEq, Repr

/-- The empty conditions dictionary. -/
def Conditions.empty : Conditions :=
  { time_restriction := none, ip_whitelist := none, ip_blacklist := none,
    required_roles := none, context_conditions := none, extra := [] }

/-- Python truthiness test on the conditions dictionary: not rule.conditions
is true exactly when the dictionary has no keys at all. -/
def Conditions.isEmpty (c : Conditions) : Bool :=
  c.time_restriction.isNone && c.ip_whitelist.isNone && c.ip_blacklist.isNone &&
    c.required_roles.isNone && c.context_conditions.isNone && c.extra.isEmpty

/-- AccessRule from src/security/access_rule_manager.py lines 38-54. -/
structure AccessRule where
  rule_id : String
  description : String
  resource_type : String
  required_permission : PermissionLevel
  conditions : Conditions
deriving DecidableEq, Repr

/-- RulePriority from src/security/access_rule_manager.py lines 14-18. -/
inductive RulePriority where
  | HIGH
  | MEDIUM
  | LOW
deriving DecidableEq, Repr

/-- Numeric value of a rule priority (HIGH = 1, MEDIUM = 2, LOW = 3). -/
def RulePriority.val : RulePriority → Nat
  | .HIGH => 1
  | .MEDIUM => 2
  | .LOW => 3

/-- RuleConditionType from src/security/access_rule_manager.py lines 21-27. -/
inductive RuleConditionType where
  | TIME_BASED
  | IP_BASED
  | ROLE_BASED
  | CONTEXTUAL
  | CUSTOM
deriving DecidableEq, Repr

/-- AccessRuleManager._determine_rule_type (access_rule_manager.py lines
144-171): classify a rule by the first present condition key category, in
the order time, IP, role, contextual, custom. -/
def determine_rule_type (rule : AccessRule) : RuleConditionType :=
  if rule.conditions.time_restriction.isSome then .TIME_BASED
  else if rule.conditions.ip_whitelist.isSome || rule.conditions.ip_blacklist.isSome then .IP_BASED
  else if rule.conditions.required_roles.isSome then .ROLE_BASED
  else if rule.conditions.context_conditions.isSome then .CONTEXTUAL
  else .CUSTOM

/-- AccessRuleManager._get_rule_priority (access_rule_manager.py lines
357-376): TIME_BASED and IP_BASED rules are HIGH, ROLE_BASED rules are
MEDIUM, every other rule is LOW. -/
def get_rule_priority (rule : AccessRule) : RulePriority :=
  match determine_rule_type rule with
  | .TIME_BASED => .HIGH
  | .IP_BASED => .HIGH
  | .ROLE_BASED => .MEDIUM
  | _ => .LOW

/-- AccessRuleManager state (access_rule_manager.py lines 73-83): the main
rule dictionary in insertion order, and the two secondary indices, whose
buckets hold references to the stored rules, modelled here by rule ids. -/
structure AccessRuleManager where
  rules : List (String × AccessRule)
  rules_by_type : List (RuleConditionType × List String)
  rules_by_resource : List (String × List String)
deriving DecidableEq, Repr

/-- The empty manager produced by AccessRuleManager.__init__. -/
def AccessRuleManager.empty : AccessRuleManager :=
  { rules := [], rules_by_type := [], rules_by_resource := [] }

/-- Lookup in an index keyed by condition type. -/
def lookupType (l : List (RuleConditionType × List String)) (k : RuleConditionType) :
    Option (List String) :=
  match l with
  | [] => none
  | (k2, v) :: rest => if k2 = k then some v else lookupType rest k

/-- Index assignment for the condition-type index. -/
def setType : List (RuleConditionType × List String) → RuleConditionType →
    List String → List (RuleConditionType × List String)
  | [], k, v => [(k, v)]
  | p :: rest, k, v => if p.1 = k then (k, v) :: rest else p :: setType rest k v

/-- AccessRuleManager.add_rule (access_rule_manager.py lines 123-142): store
the rule and append it to the bucket of its derived type and of its
resource type, creating the bucket when absent. -/
def add_rule (m : AccessRuleManager) (rule : AccessRule) : AccessRuleManager :=
  let rules1 := setKey m.rules rule.rule_id rule
  let rt := determine_rule_type rule
  let byType1 :=
    match lookupType m.rules_by_type rt with
    | some bucket => setType m.rules_by_type rt (bucket ++ [rule.rule_id])
    | none => m.rules_by_type ++ [(rt, [rule.rule_id])]
  let byRes1 :=
    match lookupKey m.rules_by_resource rule.resource_type with
    | some bucket => setKey m.rules_by_resource rule.resource_type (bucket ++ [rule.rule_id])
    | none => m.rules_by_resource ++ [(rule.resource_type, [rule.rule_id])]
  { rules := rules1, rules_by_type := byType1, rules_by_resource := byRes1 }

/-- AccessRuleManager.get_rules restricted to the resource-type filter
(access_rule_manager.py lines 186-191), the only form the validation path
uses: all stored rules in insertion order, filtered by resource type when
the argument is non-empty (a falsy empty string disables the filter, as in
the source). -/
def get_rules (m : AccessRuleManager) (resource_type : String) : List AccessRule :=
  let result := m.rules.map Prod.snd
  if resource_type ≠ "" then
    result.filter (fun r => r.resource_type = resource_type)
  else
    result

/-- Stable insertion of an element into an already-processed list: the new
element goes after every element whose sort key is less than or equal to its
own, preserving first-come order among equal keys. -/
def insertStable {α : Type} (key : α → Nat) (x : α) : List α → List α
  | [] => [x]
  | y :: ys => if key y ≤ key x then y :: insertStable key x ys else x :: y :: ys

/-- The Python builtin sorted(l, key = key): a stable sort by the given
integer key, modelled as a left fold of stable insertions. -/
def pySorted {α : Type} (key : α → Nat) (l : List α) : List α :=
  l.foldl (fun acc x => insertStable key x acc) []

/-- AccessRuleManager._check_conditions (access_rule_manager.py lines
378-426), parametrised by the current wall-clock hour.  A rule with an
empty conditions dictionary matches unconditionally; otherwise the time
window, IP whitelist, required roles and contextual key/value checks are
applied in turn.  A malformed hour bound raises ValueError in the source
(int on a non-numeric string), modelled by the error case. -/
def check_conditions (rule : AccessRule) (context : SecurityContext) (hour : Int) :
    Except PyErr Bool :=
  if rule.conditions.isEmpty then .ok true
  else do
    match rule.conditions.time_restriction with
    | some tr =>
      match splitChar (Char.ofNat 45) tr with
      | [a, b] =>
        match pyInt? a, pyInt? b with
        | some start_hour, some end_hour =>
          if ¬ (start_hour ≤ hour ∧ hour < end_hour) then return false
          else pure ()
        | _, _ => throw .valueError
      | _ => pure ()
    | none => pure ()
    match rule.conditions.ip_whitelist with
    | some wl => if ¬ wl.contains context.ip_address then return false else pure ()
    | none => pure ()
    match rule.conditions.required_roles with
    | some req =>
      if ¬ context.roles.any (fun role => req.contains role) then return false else pure ()
    | none => pure ()
    match rule.conditions.context_conditions with
    | some cc =>
      let context_dict := context.to_dict
      if ¬ cc.all (fun kv => lookupKey context_dict kv.1 = some kv.2) then return false
      else pure ()
    | none => pure ()
    return true

/-- The sorted rule list iterated by AccessRuleManager.validate_access
(access_rule_manager.py lines 336-342): the rules of the resource type, in
insertion order, stably sorted by derived priority value. -/
def sorted_rules_for (m : AccessRuleManager) (resource_type : String) : List AccessRule :=
  pySorted (fun r => (get_rule_priority r).val) (get_rules m resource_type)

/-- The rule loop of AccessRuleManager.validate_access (access_rule_manager.py
lines 344-355): skip rules whose conditions fail, grant on the first
matching rule whose required permission is at most the requested level,
deny when the loop ends. -/
def validate_loop (context : SecurityContext) (hour : Int)
    (required_permission : PermissionLevel) : List AccessRule → Except PyErr Bool
  | [] => .ok false
  | rule :: rest => do
    let matched ← check_conditions rule context hour
    if matched then
      if rule.required_permission.val ≤ required_permission.val then
        return true
      else
        validate_loop context hour required_permission rest
    else
      validate_loop context hour required_permission rest

/-- AccessRuleManager.validate_access (access_rule_manager.py lines
320-355), parametrised by the current wall-clock hour. -/
def validate_access (m : AccessRuleManager) (context : SecurityContext)
    (resource_type : String) (required_permission : PermissionLevel) (hour : Int) :
    Except PyErr Bool :=
  validate_loop context hour required_permission (sorted_rules_for m resource_type)

/-- The updates dictionary accepted by AccessRuleManager.update_rule: each
recognized key is present (some) or absent (none).  The required_permission
value is carried as the raw integer handed to the PermissionLevel call. -/
structure RuleUpdates where
  description : Option String
  resource_type : Option String
  required_permission : Option Int
  conditions : Option Conditions
deriving DecidableEq, Repr

/-- The tail of AccessRuleManager.update_rule after the permission step
(access_rule_manager.py lines 256-277): apply a conditions update, then
recompute the rule type twice on the already-updated rule (lines 260-261,
so old and new type always coincide) and relocate the type index only when
they differ. -/
def update_rule_finish (m : AccessRuleManager) (rule_id : String) (rule2 : AccessRule)
    (byRes : List (String × List String)) (u : RuleUpdates) : Bool × AccessRuleManager :=
  let rule3 :=
    match u.conditions with
    | some c => { rule2 with conditions := c }
    | none => rule2
  let old_type := determine_rule_type rule3
  let new_type := determine_rule_type rule3
  let byType :=
    if old_type ≠ new_type then
      let removed :=
        match lookupType m.rules_by_type old_type with
        | some bucket =>
          let bucket2 := bucket.filter (fun rid => rid ≠ rule_id)
          if bucket2.isEmpty then m.rules_by_type.filter (fun p => p.1 ≠ old_type)
          else setType m.rules_by_type old_type bucket2
        | none => m.rules_by_type
      match lookupType removed new_type with
      | some bucket => setType removed new_type (bucket ++ [rule_id])
      | none => removed ++ [(new_type, [rule_id])]
    else
      m.rules_by_type
  (true, { rules := setKey m.rules rule_id rule3, rules_by_type := byType,
           rules_by_resource := byRes })

/-- AccessRuleManager.update_rule (access_rule_manager.py lines 209-277).
Updates are applied in source order: description first, then the resource
type together with its index move, then the required permission, whose
invalid values abort with False at a point where the earlier updates have
already been committed, then the conditions and the (vacuous) type-index
relocation.  Returns the success flag and the resulting manager state. -/
def update_rule (m : AccessRuleManager) (rule_id : String) (u : RuleUpdates) :
    Bool × AccessRuleManager :=
  match lookupKey m.rules rule_id with
  | none => (false, m)
  | some rule0 =>
    let rule1 :=
      match u.description with
      | some d => { rule0 with description := d }
      | none => rule0
    let moved :=
      match u.resource_type with
      | some new_resource =>
        let byRes1 :=
          match lookupKey m.rules_by_resource rule1.resource_type with
          | some bucket =>
            let bucket2 := bucket.filter (fun rid => rid ≠ rule_id)
            if bucket2.isEmpty then eraseKey m.rules_by_resource rule1.resource_type
            else setKey m.rules_by_resource rule1.resource_type bucket2
          | none => m.rules_by_resource
        let byRes2 :=
          match lookupKey byRes1 new_resource with
          | some bucket => setKey byRes1 new_resource (bucket ++ [rule_id])
          | none => byRes1 ++ [(new_resource, [rule_id])]
        ({ rule1 with resource_type := new_resource }, byRes2)
      | none => (rule1, m.rules_by_resource)
    match u.required_permission with
    | some v =>
      match permissionLevelOfInt v with
      | some p => update_rule_finish m rule_id { moved.1 with required_permission := p } moved.2 u
      | none =>
        (false, { rules := setKey m.rules rule_id moved.1,
                  rules_by_type := m.rules_by_type, rules_by_resource := moved.2 })
    | none => update_rule_finish m rule_id moved.1 moved.2 u

/-- PermissionValidator state (permission_validator.py lines 119-127): the
access rule store is a dictionary from resource type to an inner dictionary
from rule id to rule. -/
structure PermissionValidator where
  access_rules : List (String × List (String × AccessRule))
deriving DecidableEq, Repr

/-- PermissionValidator._check_conditions (permission_validator.py lines
210-242), parametrised by the current wall-clock hour: empty conditions
match unconditionally, then the IP whitelist and the time window are
checked (this validator ignores the other condition keys). -/
def pv_check_conditions (rule : AccessRule) (context : SecurityContext) (hour : Int) :
    Except PyErr Bool :=
  if rule.conditions.isEmpty then .ok true
  else do
    match rule.conditions.ip_whitelist with
    | some wl => if ¬ wl.contains context.ip_address then return false else pure ()
    | none => pure ()
    match rule.conditions.time_restriction with
    | some tr =>
      match splitChar (Char.ofNat 45) tr with
      | [a, b] =>
        match pyInt? a, pyInt? b with
        | some start_hour, some end_hour =>
          if ¬ (start_hour ≤ hour ∧ hour < end_hour) then return false
          else pure ()
        | _, _ => throw .valueError
      | _ => pure ()
    | none => pure ()
    return true

/-- The rule loop of PermissionValidator._check_access_rules
(permission_validator.py lines 197-208) over the bucket of the requested
resource type. -/
def pv_rule_loop (context : SecurityContext) (hour : Int)
    (required_permission : PermissionLevel) : List (String × AccessRule) → Except PyErr Bool
  | [] => .ok false
  | (_, rule) :: rest => do
    let matched ← pv_check_conditions rule context hour
    if matched then
      if rule.required_permission.val ≤ required_permission.val then
        return true
      else
        pv_rule_loop context hour required_permission rest
    else
      pv_rule_loop context hour required_permission rest

/-- PermissionValidator._check_access_rules (permission_validator.py lines
173-208): allow when the whole store is empty, deny when the store is
non-empty but holds no bucket for the resource type, otherwise run the rule
loop of the bucket. -/
def check_access_rules (pv : PermissionValidator) (resource_type : String)
    (required_permission : PermissionLevel) (context : SecurityContext) (hour : Int) :
    Except PyErr Bool :=
  if pv.access_rules.isEmpty then .ok true
  else
    match lookupKey pv.access_rules resource_type with
    | none => .ok false
    | some bucket => pv_rule_loop context hour required_permission bucket

/-- UserRole from src/security/role_permissions.py lines 12-26. -/
structure UserRole where
  role_id : String
  name : String
  description : String
  parent_roles : List String
deriving DecidableEq, Repr

/-- RoleManager state (role_permissions.py lines 73-88): the role
dictionary, the name-to-id mapping, the per-role grants and the protected
default role names. -/
structure RoleManager where
  roles : List (String × UserRole)
  role_names : List (String × String)
  role_permissions : List (String × List (String × PermissionLevel))
  default_roles : List String
deriving DecidableEq, Repr

/-- RoleManager.delete_role (role_permissions.py lines 148-179).  Missing
and protected roles return False without error; on the main path the role
is first removed from the role dictionary (line 168) and then line 171
reads self.roles of the just-deleted id again, which raises KeyError, so
the name mapping and grant removals below it are never reached.  The
result pairs the outcome with the state as left at that point. -/
def delete_role (st : RoleManager) (role_id : String) : Except PyErr Bool × RoleManager :=
  match lookupKey st.roles role_id with
  | none => (.ok false, st)
  | some role =>
    if st.default_roles.contains role.name then (.ok false, st)
    else
      let roles1 := eraseKey st.roles role_id
      match lookupKey roles1 role_id with
      | none => (.error .keyError, { st with roles := roles1 })
      | some role2 =>
        let names1 := eraseKey st.role_names role2.name
        let perms1 := eraseKey st.role_permissions role_id
        (.ok true, { st with roles := roles1, role_names := names1,
                             role_permissions := perms1 })

/-- The merge step of RoleManager.get_effective_permissions
(role_permissions.py line 277): keep a resource's level only when none is
recorded yet or the new level is strictly higher. -/
def merge_grant (acc : List (String × PermissionLevel)) (resource : String)
    (level : PermissionLevel) : List (String × PermissionLevel) :=
  match lookupKey acc resource with
  | none => acc ++ [(resource, level)]
  | some cur => if cur.val < level.val then setKey acc resource level else acc

/-- Merge a whole grant dictionary into the accumulator, in insertion
order. -/
def merge_grants (acc : List (String × PermissionLevel))
    (grants : List (String × PermissionLevel)) : List (String × PermissionLevel) :=
  grants.foldl (fun a p => merge_grant a p.1 p.2) acc

mutual

/-- RoleManager.get_effective_permissions (role_permissions.py lines
259-289), indexed by the remaining recursion depth.  The source recurses
into the parent roles of every role with no visited set, so each nested
call consumes one stack frame; a run that needs more frames than any given
bound is modelled by none, and a none result for every bound means the
Python call never returns (it dies with RecursionError on a cyclic parent
graph). -/
def get_effective_permissions (st : RoleManager) (fuel : Nat) (role_ids : List String) :
    Option (List (String × PermissionLevel)) :=
  match fuel with
  | 0 => none
  | fuel2 + 1 => effective_loop st fuel2 role_ids []
termination_by (fuel, 0, 0)

/-- The role loop inside get_effective_permissions: direct grants of each
role are merged first, then the recursive result for its existing parent
roles. -/
def effective_loop (st : RoleManager) (fuel : Nat) (role_ids : List String)
    (acc : List (String × PermissionLevel)) : Option (List (String × PermissionLevel)) :=
  match role_ids with
  | [] => some acc
  | role_id :: rest =>
    let acc1 :=
      match lookupKey st.role_permissions role_id with
      | some grants => merge_grants acc grants
      | none => acc
    match lookupKey st.roles role_id with
    | some role =>
      match get_effective_permissions st fuel
          (role.parent_roles.filter (fun pid => (lookupKey st.roles pid).isSome)) with
      | none => none
      | some parent_permissions => effective_loop st fuel rest (merge_grants acc1 parent_permissions)
    | none => effective_loop st fuel rest acc1
termination_by (fuel, 1, role_ids.length)

end

/-- AuditLogEntry from src/security/audit_logger.py lines 23-43.  The
constructor accepts exactly the keyword parameters event_type, message,
context, operation, severity and category; entry id, timestamp and duration
are generated inside it.  Timestamps are modelled as integers ordered like
the iso-format strings the source produces. -/
structure AuditLogEntry where
  entry_id : String
  event_type : String
  message : String
  context : SecurityContext
  operation : List (String × PyVal)
  severity : Int
  category : String
  timestamp : Int
  duration : Int
deriving DecidableEq, Repr

/-- Keyword parameters accepted by AuditLogEntry.__init__ (audit_logger.py
lines 27-33). -/
def auditLogEntryInitParams : List String :=
  ["event_type", "message", "context", "operation", "severity", "category"]

/-- Parameters of AuditLogEntry.__init__ that have no default value and
must therefore be supplied by any call. -/
def auditLogEntryRequiredParams : List String :=
  ["event_type", "message", "context", "operation"]

/-- Keyword names that AuditLogger.log_event passes to the AuditLogEntry
call on audit_logger.py lines 192-203. -/
def logEventPassedKw : List String :=
  ["entry_id", "severity", "category", "description", "details"]

/-- Python keyword-call well-formedness: every passed keyword must name an
accepted parameter and every parameter without a default must be passed,
otherwise the call raises TypeError. -/
def kwCallOk (passed accepted required : List String) : Bool :=
  passed.all (fun k => accepted.contains k) && required.all (fun k => passed.contains k)

/-- AuditFilter from src/security/audit_logger.py lines 78-94. -/
structure AuditFilter where
  start_time : Option Int
  end_time : Option Int
  severity_min : Int
  severity_max : Int
  categories : List String
  users : List String
deriving DecidableEq, Repr

/-- AuditFilter.matches (audit_logger.py lines 96-131): reject on a start
time above the entry time, an end time below it (both bounds inclusive),
a severity outside the range, or a category outside a non-empty category
set.  When the user set is non-empty, line 128 reads entry.details, an
attribute AuditLogEntry never defines, so the check raises AttributeError
for every entry that reaches it. -/
def filter_matches (f : AuditFilter) (entry : AuditLogEntry) : Except PyErr Bool :=
  if f.start_time.elim false (fun s => entry.timestamp < s) then .ok false
  else if f.end_time.elim false (fun e => entry.timestamp > e) then .ok false
  else if ¬ (f.severity_min ≤ entry.severity ∧ entry.severity ≤ f.severity_max) then .ok false
  else if ¬ f.categories.isEmpty ∧ ¬ f.categories.contains entry.category then .ok false
  else if ¬ f.users.isEmpty then .error .attributeError
  else .ok true

/-- The list comprehension of AuditLogger.get_audit_log (audit_logger.py
line 267): keep the entries the filter matches, propagating the first
exception the filter raises. -/
def filter_entries (f : AuditFilter) : List AuditLogEntry → Except PyErr (List AuditLogEntry)
  | [] => .ok []
  | entry :: rest => do
    let keep ← filter_matches f entry
    let tail ← filter_entries f rest
    return if keep then entry :: tail else tail

/-- AuditLogger.get_audit_log (audit_logger.py lines 251-269): a copy of
the log, filtered when criteria are given. -/
def get_audit_log (log : List AuditLogEntry) (filter_criteria : Option AuditFilter) :
    Except PyErr (List AuditLogEntry) :=
  match filter_criteria with
  | none => .ok log
  | some f => filter_entries f log

/-- AuditLogger retention and level state (audit_logger.py lines 138-151). -/
structure AuditLogger where
  audit_log : List AuditLogEntry
  max_entries : Nat
  log_level : Int
deriving DecidableEq, Repr

/-- AuditLogger.log_event (audit_logger.py lines 153-216), with the fresh
entry id and current time passed in.  Below the severity gate the source
calls AuditLogEntry with the keyword names entry_id, severity, category,
description and details (lines 192-203); the class accepts none of
entry_id, description or details and requires event_type, message, context
and operation, so the call raises TypeError before anything is appended.
The branch behind the keyword check spells out the append and oldest-first
eviction (lines 206-211) that the source would perform if the construction
succeeded; it is unreachable. -/
def log_event (st : AuditLogger) (event_type message : String)
    (context : SecurityContext) (operation : List (String × PyVal)) (severity : Int)
    (category : String) (fresh_id : String) (now : Int) :
    Except PyErr (String × AuditLogger) :=
  if severity < st.log_level then .ok ("none", st)
  else if kwCallOk logEventPassedKw auditLogEntryInitParams auditLogEntryRequiredParams then
    let entry : AuditLogEntry :=
      { entry_id := fresh_id, event_type := event_type, message := message,
        context := context, operation := operation, severity := severity,
        category := category, timestamp := now, duration := 0 }
    let log1 := st.audit_log ++ [entry]
    let log2 :=
      if log1.length > st.max_entries then log1.drop (log1.length - st.max_entries)
      else log1
    .ok (fresh_id, { st with audit_log := log2 })
  else .error .typeError

/-- TaskPriority from src/planner/task_planner.py lines 13-18. -/
inductive TaskPriority where
  | CRITICAL
  | HIGH
  | MEDIUM
  | LOW
deriving DecidableEq, Repr

/-- Numeric value of a task priority (CRITICAL = 1 down to LOW = 4). -/
def TaskPriority.val : TaskPriority → Int
  | .CRITICAL => 1
  | .HIGH => 2
  | .MEDIUM => 3
  | .LOW => 4

/-- PlanStatus from src/planner/task_planner.py lines 21-27. -/
inductive PlanStatus where
  | PENDING
  | ACTIVE
  | COMPLETED
  | FAILED
  | CANCELLED
deriving DecidableEq, Repr

/-- TaskMetadata from src/planner/task_planner.py lines 30-43.  The float
complexity estimate is carried as a scaled integer; no code modelled here
computes with it, it is only copied. -/
structure TaskMetadata where
  created_by : String
  source_type : String
  context_size : Nat
  estimated_complexity : Int
deriving DecidableEq, Repr

/-- ExecutionStep from src/planner/task_planner.py lines 46-63.  The
constructor stores the numeric value of the priority enum (line 60) and
initialises status to PENDING with empty start and end times; status and
times are mutable and may be overwritten afterwards. -/
structure ExecutionStep where
  step_id : String
  description : String
  tool_name : Option String
  parameters : List (String × PyVal)
  priority : Int
  status : PlanStatus
  start_time : Option Int
  end_time : Option Int
deriving DecidableEq, Repr

/-- The ExecutionStep constructor (task_planner.py lines 50-63). -/
def ExecutionStep.init (step_id description : String) (tool_name : Option String)
    (parameters : List (String × PyVal)) (priority : TaskPriority) : ExecutionStep :=
  { step_id := step_id, description := description, tool_name := tool_name,
    parameters := parameters, priority := priority.val, status := .PENDING,
    start_time := none, end_time := none }

/-- ExecutionPlan from src/planner/task_planner.py lines 79-97.  Plan ids
and timestamps come from the uuid generator and the wall clock, so the
embedding threads an explicit supply for both. -/
structure ExecutionPlan where
  plan_id : String
  task_description : String
  metadata : Option TaskMetadata
  steps : List ExecutionStep
  status : PlanStatus
  created_at : Int
  updated_at : Int
deriving DecidableEq, Repr

/-- Supply of fresh uuid strings and current-time readings: uuids and times
enumerate the values uuid4 and datetime.now return, u and t count how many
of each have been consumed so far. -/
structure Gen where
  uuids : Nat → String
  times : Nat → Int
  u : Nat
  t : Nat

/-- One uuid4() call. -/
def Gen.fresh_uuid (g : Gen) : String × Gen :=
  (g.uuids g.u, { g with u := g.u + 1 })

/-- One datetime.now() reading. -/
def Gen.read_now (g : Gen) : Int × Gen :=
  (g.times g.t, { g with t := g.t + 1 })

/-- The ExecutionPlan constructor (task_planner.py lines 83-92): a fresh
plan id, no steps, status PENDING and freshly read creation and update
times. -/
def ExecutionPlan.init (task_description : String) (metadata : Option TaskMetadata)
    (g : Gen) : ExecutionPlan × Gen :=
  let (pid, g1) := g.fresh_uuid
  let (now, g2) := g1.read_now
  ({ plan_id := pid, task_description := task_description, metadata := metadata,
     steps := [], status := .PENDING, created_at := now, updated_at := now }, g2)

/-- ExecutionPlan.add_step (task_planner.py lines 94-97): append the step
and refresh the update time. -/
def ExecutionPlan.add_step (p : ExecutionPlan) (s : ExecutionStep) (g : Gen) :
    ExecutionPlan × Gen :=
  let (now, g1) := g.read_now
  ({ p with steps := p.steps ++ [s], updated_at := now }, g1)

/-- StaticPriorityRule from src/planner/task_prioritization.py lines
63-73. -/
structure StaticPriorityRule where
  rule_id : String
  description : String
  priority : TaskPriority
  step_ids : List String
deriving DecidableEq, Repr

/-- The per-step body of StaticPriorityRule.apply (task_prioritization.py
lines 92-106): a step whose id the rule lists is rebuilt through the
ExecutionStep constructor with the rule's priority and then given back its
old status and start and end times; any other step is carried over as is. -/
def static_transform_step (rule : StaticPriorityRule) (step : ExecutionStep) : ExecutionStep :=
  if rule.step_ids.contains step.step_id then
    { ExecutionStep.init step.step_id step.description step.tool_name step.parameters
        rule.priority with
      status := step.status, start_time := step.start_time, end_time := step.end_time }
  else step

/-- StaticPriorityRule.apply (task_prioritization.py lines 75-108): build a
brand-new plan via the ExecutionPlan constructor and add every transformed
step to it in order. -/
def static_apply (rule : StaticPriorityRule) (plan : ExecutionPlan) (g : Gen) :
    ExecutionPlan × Gen :=
  let start := ExecutionPlan.init plan.task_description plan.metadata g
  plan.steps.foldl
    (fun acc step => ExecutionPlan.add_step acc.1 (static_transform_step rule step) acc.2)
    start

/-- TimeBasedPriorityRule from src/planner/task_prioritization.py lines
117-129: the window bounds are strings in HH:MM form. -/
structure TimeBasedPriorityRule where
  rule_id : String
  description : String
  priority : TaskPriority
  start_time : String
  end_time : String
deriving DecidableEq, Repr

/-- Parsing of an HH:MM bound as done on task_prioritization.py lines
147-148: split on the colon and convert both parts with int, which demands
exactly two numeric parts on pain of ValueError. -/
def parseHM (s : String) : Option (Int × Int) :=
  match splitChar (Char.ofNat 58) s with
  | [h, m] =>
    match pyInt? h, pyInt? m with
    | some hh, some mm => some (hh, mm)
    | _, _ => none
  | _ => none

/-- The window test of TimeBasedPriorityRule.apply (task_prioritization.py
lines 153-158) on minute totals: an ordinary window is inclusive on both
ends, an overnight window (start greater than end) is active outside the
exclusive middle. -/
def time_window_active (start_total end_total current_time : Int) : Bool :=
  if start_total ≤ end_total then
    decide (start_total ≤ current_time ∧ current_time ≤ end_total)
  else
    decide (current_time ≥ start_total ∨ current_time ≤ end_total)

/-- The activation decision of TimeBasedPriorityRule.apply
(task_prioritization.py lines 141-158), parametrised by the current hour
and minute. -/
def time_based_active (rule : TimeBasedPriorityRule) (current_hour current_minute : Nat) :
    Except PyErr Bool :=
  let current_time : Int := current_hour * 60 + current_minute
  match parseHM rule.start_time, parseHM rule.end_time with
  | some s, some e =>
    .ok (time_window_active (s.1 * 60 + s.2) (e.1 * 60 + e.2) current_time)
  | _, _ => .error .valueError

/-- The per-step body of the active branch of TimeBasedPriorityRule.apply
(task_prioritization.py lines 171-182): every step is rebuilt with the
rule's priority, keeping its status and times. -/
def time_based_transform_step (rule : TimeBasedPriorityRule) (step : ExecutionStep) :
    ExecutionStep :=
  { ExecutionStep.init step.step_id step.description step.tool_name step.parameters
      rule.priority with
    status := step.status, start_time := step.start_time, end_time := step.end_time }

/-- TimeBasedPriorityRule.apply (task_prioritization.py lines 131-184): an
inactive rule returns the input plan unchanged; an active one builds a new
plan from the constructor and adds every rebuilt step. -/
def time_based_apply (rule : TimeBasedPriorityRule) (plan : ExecutionPlan)
    (current_hour current_minute : Nat) (g : Gen) : Except PyErr (ExecutionPlan × Gen) := do
  let is_active ← time_based_active rule current_hour current_minute
  if is_active then
    let start := ExecutionPlan.init plan.task_description plan.metadata g
    return plan.steps.foldl
      (fun acc step => ExecutionPlan.add_step acc.1 (time_based_transform_step rule step) acc.2)
      start
  else
    return (plan, g)

/-- A concrete security context used for concrete evaluations. -/
def ctx0 : SecurityContext :=
  { user_id := "u1", roles := ["user"], session_id := "s1", ip_address := "1.2.3.4",
    timestamp := "t0" }

/-- A concrete rule with a time restriction, so its derived type is
TIME_BASED. -/
def rule_tr : AccessRule :=
  { rule_id := "r1", description := "d", resource_type := "shell",
    required_permission := .ADMIN,
    conditions := { Conditions.empty with time_restriction := some "9-17" } }

/-- A manager holding only rule_tr, built through add_rule as the source
does. -/
def m4 : AccessRuleManager := add_rule AccessRuleManager.empty rule_tr

/-- An update that empties the conditions of a rule, changing its derived
type from TIME_BASED to CUSTOM. -/
def u4 : RuleUpdates :=
  { description := none, resource_type := none, required_permission := none,
    conditions := some Conditions.empty }

/-- An update carrying both a description change and an out-of-range
permission value. -/
def u5 : RuleUpdates :=
  { description := some "changed", resource_type := none,
    required_permission := some 99, conditions := none }

/-- An update carrying only an out-of-range permission value. -/
def u5b : RuleUpdates :=
  { description := none, resource_type := none,
    required_permission := some 99, conditions := none }

/-- A role table whose parent graph is a two-cycle: role A has parent B and
role B has parent A. -/
def cycState : RoleManager :=
  { roles := [("A", { role_id := "A", name := "a", description := "",
                      parent_roles := ["B"] }),
              ("B", { role_id := "B", name := "b", description := "",
                      parent_roles := ["A"] })],
    role_names := [("a", "A"), ("b", "B")],
    role_permissions := [("A", [("documents", .WRITE)])],
    default_roles := ["user", "admin"] }

/-- A role table holding one protected default role and one ordinary
deletable role. -/
def roleSt3 : RoleManager :=
  { roles := [("u0", { role_id := "u0", name := "user", description := "",
                       parent_roles := [] }),
              ("r1", { role_id := "r1", name := "temp", description := "",
                       parent_roles := [] })],
    role_names := [("user", "u0"), ("temp", "r1")],
    role_permissions := [("r1", [("files", .READ)])],
    default_roles := ["user", "admin"] }

/-- A concrete audit logger state at the default log level 3 with room for
two entries. -/
def st6 : AuditLogger :=
  { audit_log := [], max_entries := 2, log_level := 3 }

/-- A concrete audit log entry with timestamp 100 and severity 3. -/
def entry1 : AuditLogEntry :=
  { entry_id := "e1", event_type := "ACCESS_DENIED", message := "m",
    context := ctx0, operation := [], severity := 3, category := "security",
    timestamp := 100, duration := 0 }

/-- A filter whose end time equals the timestamp of entry1 and whose other
predicates are the constructor defaults. -/
def f7 : AuditFilter :=
  { start_time := none, end_time := some 100, severity_min := 1,
    severity_max := 5, categories := [], users := [] }

/-- The overnight time-based priority rule of the end-to-end scenario: a
window from 22:00 to 06:00. -/
def rule226 : TimeBasedPriorityRule :=
  { rule_id := "t1", description := "overnight", priority := .CRITICAL,
    start_time := "22:00", end_time := "06:00" }

/-- A concrete generator supply for the planner embeddings. -/
def gen0 : Gen :=
  { uuids := fun n => "uuid" ++ toString n, times := fun n => 1000 + Int.ofNat n,
    u := 0, t := 0 }

/-- A concrete execution plan with one step, used to evaluate the priority
rules. -/
def plan0 : ExecutionPlan :=
  { plan_id := "p0", task_description := "demo", metadata := none,
    steps := [{ step_id := "s1", description := "step", tool_name := some "shell",
                parameters := [], priority := 3, status := .ACTIVE,
                start_time := some 5, end_time := none }],
    status := .ACTIVE, created_at := 1, updated_at := 2 }

theorem lookupKey_eraseKey_self {α : Type} (l : List (String × α)) (k : String) :
    lookupKey (eraseKey l k) k = none := by
  induction l with
  | nil => rfl
  | cons p rest ih =>
    by_cases h : p.1 = k
    · simpa [eraseKey, List.filter_cons, h] using ih
    · simpa [eraseKey, List.filter_cons, lookupKey, h] using ih

theorem lookupKey_setKey_self {α : Type} (l : List (String × α)) (k : String) (v : α) :
    lookupKey (setKey l k v) k = some v := by
  induction l with
  | nil => simp [setKey, lookupKey]
  | cons p rest ih =>
    by_cases h : p.1 = k
    · simp [setKey, h, lookupKey]
    · simp [setKey, h, lookupKey, ih]

theorem setKey_self {α : Type} (l : List (String × α)) (k : String) (v : α)
    (h : lookupKey l k = some v) : setKey l k v = l := by
  induction l with
  | nil => simp [lookupKey] at h
  | cons p rest ih =>
    obtain ⟨pk, pv⟩ := p
    by_cases hp : pk = k
    · simp [lookupKey, hp] at h
      simp [setKey, hp, h]
    · simp [lookupKey, hp] at h
      simp [setKey, hp, ih h]

theorem effective_loop_cyc_A (fuel : Nat) (acc : List (String × PermissionLevel)) :
    effective_loop cycState fuel ["A"] acc =
      match get_effective_permissions cycState fuel ["B"] with
      | none => none
      | some pp =>
        some (merge_grants (merge_grants acc [("documents", PermissionLevel.WRITE)]) pp) := by
  simp only [effective_loop]
  simp +decide [cycState, lookupKey]

theorem effective_loop_cyc_B (fuel : Nat) (acc : List (String × PermissionLevel)) :
    effective_loop cycState fuel ["B"] acc =
      match get_effective_permissions cycState fuel ["A"] with
      | none => none
      | some pp => some (merge_grants acc pp) := by
  simp only [effective_loop]
  simp +decide [cycState, lookupKey]

theorem effective_permissions_cyc (n : Nat) :
    get_effective_permissions cycState n ["A"] = none ∧
    get_effective_permissions cycState n ["B"] = none := by
  induction n with
  | zero => exact ⟨by simp [get_effective_permissions], by simp [get_effective_permissions]⟩
  | succ m ih =>
    constructor
    · have h1 : get_effective_permissions cycState (m + 1) ["A"]
          = effective_loop cycState m ["A"] [] := by
        simp [get_effective_permissions]
      rw [h1, effective_loop_cyc_A m [], ih.2]
    · have h1 : get_effective_permissions cycState (m + 1) ["B"]
          = effective_loop cycState m ["B"] [] := by
        simp [get_effective_permissions]
      rw [h1, effective_loop_cyc_B m [], ih.1]

/-- C2: the claim says get_effective_permissions returns a result for every
finite role table, including cyclic parent graphs.  On the two-cycle role
table cycState the source recurses through A, B, A, ... with no visited
set, so no recursion depth suffices: the depth-indexed embedding returns
none for every fuel bound, which is the shallow-embedding statement that
the Python call never terminates (it raises RecursionError).  This refutes
the termination claim on cyclic graphs and identifies a code bug, since the
spec requires a visited-role set. -/
theorem C2_effective_permissions_diverges_on_cycle (fuel : Nat) :
    get_effective_permissions cycState fuel ["A"] = none :=
  (effective_permissions_cyc fuel).1

/-- C3: delete_role on an existing role returns False and leaves the state
alone when the role's name is a protected default; on any other existing
role, however, the source deletes the role from the role dictionary and
then reads self.roles of that same id again (role_permissions.py line
171), so the call raises KeyError with the role gone from the role table
but the name mapping and the grants still in place — it never returns True
and never removes the name mapping or the grants, contradicting the claim
and the documented contract (a code bug). -/
theorem C3_delete_role_behaviour (st : RoleManager) (rid : String) (role : UserRole)
    (h1 : lookupKey st.roles rid = some role) :
    (st.default_roles.contains role.name = true → delete_role st rid = (.ok false, st)) ∧
    (st.default_roles.contains role.name = false →
      (delete_role st rid).1 = Except.error PyErr.keyError ∧
      (delete_role st rid).2 =
        { st with roles := eraseKey st.roles rid }) := by
  constructor
  · intro h2
    have hmem : role.name ∈ st.default_roles := by simpa using h2
    unfold delete_role
    rw [h1]
    simp [hmem]
  · intro h2
    have hmem : role.name ∉ st.default_roles := by simpa using h2
    unfold delete_role
    rw [h1]
    simp [hmem, lookupKey_eraseKey_self]

/-- Witness for C3 on the concrete role table roleSt3: deleting the
protected default role u0 returns False without error, while deleting the
ordinary role r1 raises KeyError, leaving the name mapping and grants in
place. -/
theorem C3_witness :
    delete_role roleSt3 "u0" = (.ok false, roleSt3) ∧
    (delete_role roleSt3 "r1").1 = Except.error PyErr.keyError ∧
    (delete_role roleSt3 "r1").2 =
      { roleSt3 with roles := eraseKey roleSt3.roles "r1" } :=
  ⟨(C3_delete_role_behaviour roleSt3 "u0"
      { role_id := "u0", name := "user", description := "", parent_roles := [] }
      (by decide)).1 (by decide),
   (C3_delete_role_behaviour roleSt3 "r1"
      { role_id := "r1", name := "temp", description := "", parent_roles := [] }
      (by decide)).2 (by decide)⟩

/-- C6: the claim says log_event is a no-op returning the sentinel id when
the severity is below the log level, and otherwise appends one entry with
oldest-first eviction.  The below-level branch behaves as claimed, but on
the logging branch the source calls AuditLogEntry with the keyword names
entry_id, description and details, none of which the class accepts, and
without the required event_type, message, context and operation arguments
(audit_logger.py lines 192-203 against lines 27-33), so every call that
passes the severity gate raises TypeError and nothing is ever appended — a
code bug. -/
theorem C6_log_event_behaviour (st : AuditLogger) (event_type message : String)
    (context : SecurityContext) (operation : List (String × PyVal)) (severity : Int)
    (category fid : String) (now : Int) :
    (severity < st.log_level →
      log_event st event_type message context operation severity category fid now
        = .ok ("none", st)) ∧
    (st.log_level ≤ severity →
      log_event st event_type message context operation severity category fid now
        = Except.error PyErr.typeError) := by
  have hkw : kwCallOk logEventPassedKw auditLogEntryInitParams
      auditLogEntryRequiredParams = false := by decide
  constructor
  · intro h
    simp [log_event, h]
  · intro h
    have h2 : ¬ severity < st.log_level := not_lt.mpr h
    simp [log_event, h2, hkw]

/-- Witness for C6 on the concrete logger st6 at log level 3: a
severity-3 event raises TypeError, and a severity-1 event returns the
sentinel id with the log unchanged. -/
theorem C6_witness :
    log_event st6 "ACCESS_DENIED" "m" ctx0 [] 3 "security" "e9" 100
      = Except.error PyErr.typeError ∧
    log_event st6 "ACCESS_DENIED" "m" ctx0 [] 1 "security" "e9" 100
      = .ok ("none", st6) :=
  ⟨(C6_log_event_behaviour st6 "ACCESS_DENIED" "m" ctx0 [] 3 "security" "e9" 100).2
      (by decide),
   (C6_log_event_behaviour st6 "ACCESS_DENIED" "m" ctx0 [] 1 "security" "e9" 100).1
      (by decide)⟩

theorem except_bind_ok {ε α β : Type} (a : α) (f : α → Except ε β) :
    (Except.ok a >>= f : Except ε β) = f a := rfl

theorem insertStable_append {α : Type} (key : α → Nat) (x : α) (A B : List α)
    (hA : ∀ y ∈ A, key y ≤ key x) (hB : ∀ y ∈ B, ¬ key y ≤ key x) :
    insertStable key x (A ++ B) = A ++ x :: B := by
  induction A with
  | nil =>
    cases B with
    | nil => rfl
    | cons b bs =>
      have hb := hB b (by simp)
      simp [insertStable, hb]
  | cons a as ih =>
    have ha : key a ≤ key x := hA a (by simp)
    simp only [List.cons_append, insertStable, if_pos ha, List.append_eq]
    rw [ih (fun y hy => hA y (by simp [hy]))]

theorem pySorted_go {α : Type} (key : α → Nat)
    (hkey : ∀ x, key x = 1 ∨ key x = 2 ∨ key x = 3) (l : List α) :
    ∀ A B C : List α,
      (∀ y ∈ A, key y = 1) → (∀ y ∈ B, key y = 2) → (∀ y ∈ C, key y = 3) →
      List.foldl (fun acc x => insertStable key x acc) (A ++ B ++ C) l =
        (A ++ l.filter (fun x => key x == 1)) ++ (B ++ l.filter (fun x => key x == 2))
          ++ (C ++ l.filter (fun x => key x == 3)) := by
  induction l with
  | nil =>
    intro A B C hA hB hC
    simp
  | cons x l ih =>
    intro A B C hA hB hC
    rcases hkey x with h1 | h2 | h3
    · have hAle : ∀ y ∈ A, key y ≤ key x := fun y hy => by rw [hA y hy, h1]
      have hgt : ∀ y ∈ B ++ C, ¬ key y ≤ key x := by
        intro y hy
        rcases List.mem_append.1 hy with h | h
        · rw [hB y h, h1]; omega
        · rw [hC y h, h1]; omega
      have e1 : insertStable key x (A ++ B ++ C) = (A ++ [x]) ++ B ++ C := by
        rw [List.append_assoc, insertStable_append key x A (B ++ C) hAle hgt]
        simp
      have hA2 : ∀ y ∈ A ++ [x], key y = 1 := by
        intro y hy
        rcases List.mem_append.1 hy with h | h
        · exact hA y h
        · simp at h; subst h; exact h1
      rw [List.foldl_cons, e1, ih (A ++ [x]) B C hA2 hB hC]
      simp [List.filter_cons, h1, List.append_assoc]
    · have hAle : ∀ y ∈ A ++ B, key y ≤ key x := by
        intro y hy
        rcases List.mem_append.1 hy with h | h
        · rw [hA y h, h2]; omega
        · rw [hB y h, h2]
      have hgt : ∀ y ∈ C, ¬ key y ≤ key x := by
        intro y hy
        rw [hC y hy, h2]; omega
      have e1 : insertStable key x (A ++ B ++ C) = A ++ (B ++ [x]) ++ C := by
        rw [← List.append_assoc, insertStable_append key x (A ++ B) C hAle hgt]
        simp
      have hB2 : ∀ y ∈ B ++ [x], key y = 2 := by
        intro y hy
        rcases List.mem_append.1 hy with h | h
        · exact hB y h
        · simp at h; subst h; exact h2
      rw [List.foldl_cons, e1, ih A (B ++ [x]) C hA hB2 hC]
      simp [List.filter_cons, h2, List.append_assoc]
    · have hAle : ∀ y ∈ (A ++ B) ++ C, key y ≤ key x := by
        intro y hy
        rcases List.mem_append.1 hy with h | h
        · rcases List.mem_append.1 h with h4 | h4
          · rw [hA y h4, h3]; omega
          · rw [hB y h4, h3]; omega
        · rw [hC y h, h3]
      have e1 : insertStable key x (A ++ B ++ C) = A ++ B ++ (C ++ [x]) := by
        have e2 := insertStable_append key x ((A ++ B) ++ C) [] hAle (by simp)
        simp only [List.append_nil] at e2
        rw [← List.append_assoc, e2]
      have hC2 : ∀ y ∈ C ++ [x], key y = 3 := by
        intro y hy
        rcases List.mem_append.1 hy with h | h
        · exact hC y h
        · simp at h; subst h; exact h3
      rw [List.foldl_cons, e1, ih A B (C ++ [x]) hA hB hC2]
      simp [List.filter_cons, h3, List.append_assoc]

theorem pySorted_partition {α : Type} (key : α → Nat)
    (hkey : ∀ x, key x = 1 ∨ key x = 2 ∨ key x = 3) (l : List α) :
    pySorted key l =
      l.filter (fun x => key x == 1) ++ l.filter (fun x => key x == 2)
        ++ l.filter (fun x => key x == 3) := by
  simpa [pySorted] using pySorted_go key hkey l [] [] [] (by simp) (by simp) (by simp)

theorem rule_key_range (r : AccessRule) :
    (get_rule_priority r).val = 1 ∨ (get_rule_priority r).val = 2 ∨
      (get_rule_priority r).val = 3 := by
  cases get_rule_priority r <;> simp [RulePriority.val]

theorem sorted_rules_for_partition (m : AccessRuleManager) (res : String) :
    sorted_rules_for m res =
      (get_rules m res).filter (fun r => (get_rule_priority r).val == 1)
        ++ (get_rules m res).filter (fun r => (get_rule_priority r).val == 2)
        ++ (get_rules m res).filter (fun r => (get_rule_priority r).val == 3) :=
  pySorted_partition _ rule_key_range _

theorem mem_of_mem_sorted_rules {m : AccessRuleManager} {res : String} {r : AccessRule}
    (h : r ∈ sorted_rules_for m res) : r ∈ get_rules m res := by
  rw [sorted_rules_for_partition] at h
  simp only [List.mem_append, List.mem_filter] at h
  tauto

theorem validate_loop_none (context : SecurityContext) (hour : Int)
    (required : PermissionLevel) (l : List AccessRule)
    (h : ∀ r ∈ l, check_conditions r context hour = .ok false ∨
      (check_conditions r context hour = .ok true ∧
        ¬ r.required_permission.val ≤ required.val)) :
    validate_loop context hour required l = .ok false := by
  induction l with
  | nil => rfl
  | cons r rest ih =>
    have hrest := ih (fun r2 h2 => h r2 (List.mem_cons_of_mem _ h2))
    rcases h r (by simp) with hf | ⟨ht, hle⟩
    · simp only [validate_loop, hf, except_bind_ok]
      simpa using hrest
    · simp only [validate_loop, ht, except_bind_ok]
      simpa [hle] using hrest

theorem pv_rule_loop_none (context : SecurityContext) (hour : Int)
    (required : PermissionLevel) (l : List (String × AccessRule))
    (h : ∀ pr ∈ l, pv_check_conditions pr.2 context hour = .ok false ∨
      (pv_check_conditions pr.2 context hour = .ok true ∧
        ¬ (pr.2 : AccessRule).required_permission.val ≤ required.val)) :
    pv_rule_loop context hour required l = .ok false := by
  induction l with
  | nil => rfl
  | cons pr rest ih =>
    have hrest := ih (fun p2 h2 => h p2 (List.mem_cons_of_mem _ h2))
    obtain ⟨rid, r⟩ := pr
    rcases h (rid, r) (by simp) with hf | ⟨ht, hle⟩
    · simp only [pv_rule_loop, hf, except_bind_ok]
      simpa using hrest
    · simp only [pv_rule_loop, ht, except_bind_ok]
      simpa [hle] using hrest

/-- C1 counterexample: the claim says a resource type with zero applicable
rules is allowed.  On the empty rule manager every resource type has zero
applicable rules, yet validate_access denies; and on a validator whose
store only holds a rule for the shell resource, a request for the files
resource (zero applicable rules) is denied as well. -/
theorem C1_counterexample :
    get_rules AccessRuleManager.empty "shell" = [] ∧
    validate_access AccessRuleManager.empty ctx0 "shell" PermissionLevel.READ 10
      = .ok false ∧
    lookupKey (PermissionValidator.mk [("shell", [("r1", rule_tr)])]).access_rules
      "files" = none ∧
    check_access_rules (PermissionValidator.mk [("shell", [("r1", rule_tr)])]) "files"
      PermissionLevel.READ ctx0 10 = .ok false := by
  refine ⟨by decide, by decide, by decide, by decide⟩

/-- C1 amended: AccessRuleManager.validate_access denies whenever no
applicable rule both matches the context and has a required permission at
most the requested level — in particular it denies when zero rules exist
for the resource type, it never defaults to allow.
PermissionValidator._check_access_rules allows exactly when the whole rule
store is empty; when the store is non-empty it denies a resource type with
no bucket, and denies when every rule in the bucket fails to match or
requires more than the requested level. -/
theorem C1_default_verdicts (m : AccessRuleManager) (pv : PermissionValidator)
    (context : SecurityContext) (res : String) (lvl : PermissionLevel) (hour : Int) :
    (get_rules m res = [] → validate_access m context res lvl hour = .ok false) ∧
    ((∀ r ∈ get_rules m res, check_conditions r context hour = .ok false ∨
        (check_conditions r context hour = .ok true ∧
          ¬ r.required_permission.val ≤ lvl.val)) →
      validate_access m context res lvl hour = .ok false) ∧
    (pv.access_rules = [] → check_access_rules pv res lvl context hour = .ok true) ∧
    (pv.access_rules ≠ [] → lookupKey pv.access_rules res = none →
      check_access_rules pv res lvl context hour = .ok false) ∧
    (∀ bucket, lookupKey pv.access_rules res = some bucket →
      (∀ pr ∈ bucket, pv_check_conditions pr.2 context hour = .ok false ∨
        (pv_check_conditions pr.2 context hour = .ok true ∧
          ¬ (pr.2 : AccessRule).required_permission.val ≤ lvl.val)) →
      check_access_rules pv res lvl context hour = .ok false) := by
  refine ⟨?_, ?_, ?_, ?_, ?_⟩
  · intro h
    unfold validate_access sorted_rules_for
    rw [h]
    rfl
  · intro h
    unfold validate_access
    exact validate_loop_none context hour lvl _
      (fun r hr => h r (mem_of_mem_sorted_rules hr))
  · intro h
    unfold check_access_rules
    rw [h]
    rfl
  · intro h1 h2
    unfold check_access_rules
    rw [h2]
    simp [h1]
  · intro bucket h1 h2
    have hne : pv.access_rules ≠ [] := by
      intro he
      rw [he] at h1
      simp [lookupKey] at h1
    unfold check_access_rules
    rw [h1]
    simp only [List.isEmpty_eq_true]
    simp [hne, pv_rule_loop_none context hour lvl bucket h2]

/-- Witness for C1 on concrete stores: the empty manager denies a files
request; the manager holding only the shell time rule denies a shell
request at hour 20 because its only rule fails the 9-17 window; the empty
validator allows; the shell-only validator denies a files request and
denies a shell request at hour 20. -/
theorem C1_witness :
    validate_access AccessRuleManager.empty ctx0 "files" PermissionLevel.READ 10
      = .ok false ∧
    validate_access m4 ctx0 "shell" PermissionLevel.EXECUTE 20 = .ok false ∧
    check_access_rules (PermissionValidator.mk []) "files" PermissionLevel.READ ctx0 10
      = .ok true ∧
    check_access_rules (PermissionValidator.mk [("shell", [("r1", rule_tr)])]) "files"
      PermissionLevel.READ ctx0 10 = .ok false ∧
    check_access_rules (PermissionValidator.mk [("shell", [("r1", rule_tr)])]) "shell"
      PermissionLevel.EXECUTE ctx0 20 = .ok false :=
  ⟨(C1_default_verdicts AccessRuleManager.empty (PermissionValidator.mk []) ctx0
      "files" PermissionLevel.READ 10).1 (by decide),
   (C1_default_verdicts m4 (PermissionValidator.mk []) ctx0 "shell"
      PermissionLevel.EXECUTE 20).2.1 (by decide),
   (C1_default_verdicts AccessRuleManager.empty (PermissionValidator.mk []) ctx0
      "files" PermissionLevel.READ 10).2.2.1 rfl,
   (C1_default_verdicts AccessRuleManager.empty
      (PermissionValidator.mk [("shell", [("r1", rule_tr)])]) ctx0 "files"
      PermissionLevel.READ 10).2.2.2.1 (by decide) (by decide),
   (C1_default_verdicts AccessRuleManager.empty
      (PermissionValidator.mk [("shell", [("r1", rule_tr)])]) ctx0 "shell"
      PermissionLevel.EXECUTE 20).2.2.2.2 [("r1", rule_tr)] (by decide) (by decide)⟩

theorem key_val_high (r : AccessRule) :
    ((get_rule_priority r).val == 1) = decide (get_rule_priority r = RulePriority.HIGH) := by
  cases h : get_rule_priority r <;> decide

theorem key_val_medium (r : AccessRule) :
    ((get_rule_priority r).val == 2) = decide (get_rule_priority r = RulePriority.MEDIUM) := by
  cases h : get_rule_priority r <;> decide

theorem key_val_low (r : AccessRule) :
    ((get_rule_priority r).val == 3) = decide (get_rule_priority r = RulePriority.LOW) := by
  cases h : get_rule_priority r <;> decide

/-- C8: the derived condition type follows the first present condition key
category in the fixed precedence order time, IP, role, contextual, custom,
whatever other keys are present; time and IP rules carry HIGH priority,
role rules MEDIUM, contextual and custom rules LOW; and validate_access
iterates exactly the resource's rules arranged as all HIGH rules, then all
MEDIUM rules, then all LOW rules, each block keeping insertion order (the
stable sort of the source). -/
theorem C8_classification_and_order :
    (∀ (i d res : String) (p : PermissionLevel) (t : String)
       (w b rr : Option (List String)) (cc : Option (List (String × PyVal)))
       (ex : List String),
      determine_rule_type ⟨i, d, res, p, ⟨some t, w, b, rr, cc, ex⟩⟩ = .TIME_BASED ∧
      get_rule_priority ⟨i, d, res, p, ⟨some t, w, b, rr, cc, ex⟩⟩ = .HIGH) ∧
    (∀ (i d res : String) (p : PermissionLevel) (wl : List String)
       (b rr : Option (List String)) (cc : Option (List (String × PyVal)))
       (ex : List String),
      determine_rule_type ⟨i, d, res, p, ⟨none, some wl, b, rr, cc, ex⟩⟩ = .IP_BASED ∧
      get_rule_priority ⟨i, d, res, p, ⟨none, some wl, b, rr, cc, ex⟩⟩ = .HIGH) ∧
    (∀ (i d res : String) (p : PermissionLevel) (bl : List String)
       (rr : Option (List String)) (cc : Option (List (String × PyVal)))
       (ex : List String),
      determine_rule_type ⟨i, d, res, p, ⟨none, none, some bl, rr, cc, ex⟩⟩ = .IP_BASED ∧
      get_rule_priority ⟨i, d, res, p, ⟨none, none, some bl, rr, cc, ex⟩⟩ = .HIGH) ∧
    (∀ (i d res : String) (p : PermissionLevel) (rl : List String)
       (cc : Option (List (String × PyVal))) (ex : List String),
      determine_rule_type ⟨i, d, res, p, ⟨none, none, none, some rl, cc, ex⟩⟩
        = .ROLE_BASED ∧
      get_rule_priority ⟨i, d, res, p, ⟨none, none, none, some rl, cc, ex⟩⟩ = .MEDIUM) ∧
    (∀ (i d res : String) (p : PermissionLevel) (cl : List (String × PyVal))
       (ex : List String),
      determine_rule_type ⟨i, d, res, p, ⟨none, none, none, none, some cl, ex⟩⟩
        = .CONTEXTUAL ∧
      get_rule_priority ⟨i, d, res, p, ⟨none, none, none, none, some cl, ex⟩⟩ = .LOW) ∧
    (∀ (i d res : String) (p : PermissionLevel) (ex : List String),
      determine_rule_type ⟨i, d, res, p, ⟨none, none, none, none, none, ex⟩⟩ = .CUSTOM ∧
      get_rule_priority ⟨i, d, res, p, ⟨none, none, none, none, none, ex⟩⟩ = .LOW) ∧
    (∀ (m : AccessRuleManager) (res : String),
      sorted_rules_for m res =
        (get_rules m res).filter (fun r => decide (get_rule_priority r = RulePriority.HIGH))
          ++ (get_rules m res).filter
              (fun r => decide (get_rule_priority r = RulePriority.MEDIUM))
          ++ (get_rules m res).filter
              (fun r => decide (get_rule_priority r = RulePriority.LOW))) ∧
    (∀ (m : AccessRuleManager) (context : SecurityContext) (res : String)
       (lvl : PermissionLevel) (hour : Int),
      validate_access m context res lvl hour =
        validate_loop context hour lvl (sorted_rules_for m res)) := by
  refine ⟨?_, ?_, ?_, ?_, ?_, ?_, ?_, ?_⟩
  · intro i d res p t w b rr cc ex
    exact ⟨rfl, rfl⟩
  · intro i d res p wl b rr cc ex
    exact ⟨rfl, rfl⟩
  · intro i d res p bl rr cc ex
    exact ⟨rfl, rfl⟩
  · intro i d res p rl cc ex
    exact ⟨rfl, rfl⟩
  · intro i d res p cl ex
    exact ⟨rfl, rfl⟩
  · intro i d res p ex
    exact ⟨rfl, rfl⟩
  · intro m res
    rw [sorted_rules_for_partition]
    simp only [key_val_high, key_val_medium, key_val_low]
  · intro m context res lvl hour
    rfl

theorem update_rule_keeps_type_index (m : AccessRuleManager) (rule_id : String)
    (u : RuleUpdates) : (update_rule m rule_id u).2.rules_by_type = m.rules_by_type := by
  unfold update_rule update_rule_finish
  repeat' split
  all_goals simp_all

/-- C4: the claim says an update that changes a rule's derived condition
type relocates it in the condition-type index.  The source computes the
old type only after all updates are applied (access_rule_manager.py lines
260-261), so old and new type always coincide and the relocation branch is
dead: update_rule never changes the condition-type index at all.  On the
concrete manager m4 the rule r1 starts TIME_BASED; emptying its conditions
makes its derived type CUSTOM, yet afterwards it is still indexed under
TIME_BASED and absent from the CUSTOM bucket — indexed under a stale
bucket, violating the claimed invariant (a code bug; the resource-type
index, by contrast, is relocated).  The first conjunct is the general
invariance, the rest evaluate the failing input. -/
theorem C4_type_index_never_relocated :
    (∀ (m : AccessRuleManager) (rule_id : String) (u : RuleUpdates),
      (update_rule m rule_id u).2.rules_by_type = m.rules_by_type) ∧
    (update_rule m4 "r1" u4).1 = true ∧
    (lookupKey (update_rule m4 "r1" u4).2.rules "r1").map determine_rule_type
      = some RuleConditionType.CUSTOM ∧
    lookupType (update_rule m4 "r1" u4).2.rules_by_type .TIME_BASED = some ["r1"] ∧
    lookupType (update_rule m4 "r1" u4).2.rules_by_type .CUSTOM = none := by
  refine ⟨update_rule_keeps_type_index, by decide, by decide, by decide, by decide⟩

/-- C5 counterexample: the claim says an update with an invalid required
permission leaves the rule's entire state untouched.  On manager m4,
updating rule r1 with a description change and the invalid permission
value 99 is rejected (returns False), yet the description change has
already been committed, so the state differs from the original. -/
theorem C5_counterexample :
    (update_rule m4 "r1" u5).1 = false ∧
    (update_rule m4 "r1" u5).2 ≠ m4 ∧
    (lookupKey (update_rule m4 "r1" u5).2.rules "r1").map AccessRule.description
      = some "changed" := by
  refine ⟨by decide, by decide, by decide⟩

/-- C5 amended: an invalid required_permission value in the updates map is
rejected with False (no exception) and leaves the rule's required
permission, its conditions and the condition-type index untouched, but any
description or resource-type updates in the same map have already been
applied by the time of the rejection; only when the updates map carries
neither of those keys is the manager state exactly unchanged. -/
theorem C5_invalid_permission_rejection (m : AccessRuleManager) (rule_id : String)
    (u : RuleUpdates) (rule0 : AccessRule) (v : Int)
    (h1 : lookupKey m.rules rule_id = some rule0)
    (h2 : u.required_permission = some v)
    (h3 : permissionLevelOfInt v = none) :
    (update_rule m rule_id u).1 = false ∧
    (∃ rule1, lookupKey (update_rule m rule_id u).2.rules rule_id = some rule1 ∧
      rule1.required_permission = rule0.required_permission ∧
      rule1.conditions = rule0.conditions) ∧
    (update_rule m rule_id u).2.rules_by_type = m.rules_by_type ∧
    (u.description = none → u.resource_type = none →
      update_rule m rule_id u = (false, m)) := by
  refine ⟨?_, ?_, update_rule_keeps_type_index m rule_id u, ?_⟩
  · unfold update_rule
    repeat' split
    all_goals simp_all
  · unfold update_rule
    repeat' split
    all_goals try simp_all
    all_goals exact ⟨_, lookupKey_setKey_self _ _ _, rfl, rfl⟩
  · intro hd hr
    unfold update_rule
    repeat' split
    all_goals try simp_all
    all_goals rw [setKey_self m.rules rule_id rule0 (by assumption)]

/-- Witness for C5 on the concrete manager m4 with an updates map holding
only the invalid permission value 99: the call is rejected and the state
is exactly unchanged. -/
theorem C5_witness :
    (update_rule m4 "r1" u5b).1 = false ∧
    (∃ rule1, lookupKey (update_rule m4 "r1" u5b).2.rules "r1" = some rule1 ∧
      rule1.required_permission = rule_tr.required_permission ∧
      rule1.conditions = rule_tr.conditions) ∧
    (update_rule m4 "r1" u5b).2.rules_by_type = m4.rules_by_type ∧
    (u5b.description = none → u5b.resource_type = none →
      update_rule m4 "r1" u5b = (false, m4)) :=
  C5_invalid_permission_rejection m4 "r1" u5b rule_tr 99 (by decide) (by decide)
    (by decide)

theorem filter_matches_ok_of_no_users (f : AuditFilter) (e : AuditLogEntry)
    (h : f.users = []) : ∃ b, filter_matches f e = .ok b := by
  unfold filter_matches
  split_ifs <;> first | exact ⟨_, rfl⟩ | simp_all

/-- C7 counterexample: the claim says an entry is returned only when its
timestamp is strictly before the filter's end time.  The filter f7 has end
time 100 and entry1 has timestamp exactly 100 — not strictly before — yet
matches accepts it and the query returns it (the end bound in the source is
inclusive, audit_logger.py line 116). -/
theorem C7_counterexample :
    filter_matches f7 entry1 = .ok true ∧
    get_audit_log [entry1] (some f7) = .ok [entry1] ∧
    f7.end_time = some 100 ∧ ¬ entry1.timestamp < 100 := by
  refine ⟨by decide, by decide, by decide, by decide⟩

/-- C7 amended: for a filter whose user set is empty, matches accepts an
entry exactly when the timestamp is at least the start time when set, at
most the end time when set (both bounds inclusive), the severity lies in
the range, and the category is in a non-empty category set; the query
returns precisely the matching entries in order.  When the user set is
non-empty the user predicate is never evaluated as the claim describes:
line 128 of the source reads the details attribute that entries do not
have, so such an entry either fails an earlier predicate or raises
AttributeError — no entry is ever returned by a user-filtered query. -/
theorem C7_filter_semantics (f : AuditFilter) (e : AuditLogEntry)
    (log : List AuditLogEntry) :
    (f.users = [] →
      (filter_matches f e = .ok true ↔
        ((match f.start_time with | some s => s ≤ e.timestamp | none => True) ∧
         (match f.end_time with | some t => e.timestamp ≤ t | none => True) ∧
         f.severity_min ≤ e.severity ∧ e.severity ≤ f.severity_max ∧
         (f.categories = [] ∨ e.category ∈ f.categories)))) ∧
    (f.users = [] →
      get_audit_log log (some f)
        = .ok (log.filter (fun e2 => decide (filter_matches f e2 = .ok true)))) ∧
    (f.users ≠ [] →
      filter_matches f e = .ok false ∨
        filter_matches f e = .error .attributeError) := by
  refine ⟨?_, ?_, ?_⟩
  · intro h
    cases hs : f.start_time <;> cases ht : f.end_time <;>
      · simp only [filter_matches, hs, ht, Option.elim, h]
        split_ifs <;> simp_all <;> first | omega | tauto
  · intro h
    induction log with
    | nil => rfl
    | cons e2 rest ih =>
      obtain ⟨b, hb⟩ := filter_matches_ok_of_no_users f e2 h
      simp only [get_audit_log] at ih ⊢
      cases hr : filter_entries f rest with
      | error err => rw [hr] at ih; simp at ih
      | ok tail =>
        rw [hr] at ih
        simp only [Except.ok.injEq] at ih
        cases b with
        | false =>
          simp only [filter_entries, hb, except_bind_ok, hr, List.filter_cons]
          simp [hb, ih]
          rfl
        | true =>
          simp only [filter_entries, hb, except_bind_ok, hr, List.filter_cons]
          simp [hb, ih]
          rfl
  · intro h
    unfold filter_matches
    split_ifs <;> first | (left; rfl) | (right; rfl) | simp_all

/-- Witness for C7: the inclusive-end query on the concrete log returns
exactly the filtered entries, and with a non-empty user set the concrete
entry makes matches raise AttributeError rather than apply a user
predicate. -/
theorem C7_witness :
    get_audit_log [entry1] (some f7)
      = .ok ([entry1].filter (fun e2 => decide (filter_matches f7 e2 = .ok true))) ∧
    (filter_matches { f7 with users := ["u1"] } entry1 = .ok false ∨
      filter_matches { f7 with users := ["u1"] } entry1 = .error .attributeError) :=
  ⟨(C7_filter_semantics f7 entry1 [entry1]).2.1 rfl,
   (C7_filter_semantics { f7 with users := ["u1"] } entry1 []).2.2 (by decide)⟩

/-- C9: the overnight branch of the time window test (start greater than
end) is active exactly at the times at or after the start or at or before
the end; the concrete 22:00-06:00 rule is active at hour 23 and at hour 2
and inactive at hour 12; and an inactive time-based rule returns the input
plan (and generator) unchanged.  This confirms the claim. -/
theorem C9_overnight_window :
    (∀ start_total end_total now : Int, end_total < start_total →
      (time_window_active start_total end_total now = true ↔
        (now ≥ start_total ∨ now ≤ end_total))) ∧
    time_based_active rule226 23 0 = .ok true ∧
    time_based_active rule226 2 0 = .ok true ∧
    time_based_active rule226 12 0 = .ok false ∧
    (∀ (rule : TimeBasedPriorityRule) (plan : ExecutionPlan)
       (ch cm : Nat) (g : Gen),
      time_based_active rule ch cm = .ok false →
      time_based_apply rule plan ch cm g = .ok (plan, g)) := by
  refine ⟨?_, by decide, by decide, by decide, ?_⟩
  · intro s e now h
    have hne : ¬ s ≤ e := not_le.mpr h
    simp [time_window_active, hne]
  · intro rule plan ch cm g h
    unfold time_based_apply
    rw [h, except_bind_ok]
    rfl

/-- Witness for C9: the overnight window formula applied at the concrete
minute totals of 22:00 and 06:00 at 23:00, and the unchanged-plan branch
applied to the concrete plan at hour 12. -/
theorem C9_witness :
    time_window_active 1320 360 1380 = true ∧
    time_based_apply rule226 plan0 12 0 gen0 = .ok (plan0, gen0) :=
  ⟨(C9_overnight_window.1 1320 360 1380 (by decide)).mpr (by decide),
   C9_overnight_window.2.2.2.2 rule226 plan0 12 0 gen0 (by decide)⟩

theorem static_transform_fields (rule : StaticPriorityRule) (step : ExecutionStep) :
    (static_transform_step rule step).step_id = step.step_id ∧
    (static_transform_step rule step).description = step.description ∧
    (static_transform_step rule step).tool_name = step.tool_name ∧
    (static_transform_step rule step).parameters = step.parameters ∧
    (static_transform_step rule step).status = step.status ∧
    (static_transform_step rule step).start_time = step.start_time ∧
    (static_transform_step rule step).end_time = step.end_time ∧
    (static_transform_step rule step).priority =
      (if rule.step_ids.contains step.step_id then rule.priority.val
       else step.priority) := by
  unfold static_transform_step ExecutionStep.init
  split_ifs <;> simp_all

theorem static_fold_spec (rule : StaticPriorityRule) (l : List ExecutionStep) :
    ∀ (p : ExecutionPlan) (g : Gen),
      (List.foldl
        (fun acc step => ExecutionPlan.add_step acc.1 (static_transform_step rule step) acc.2)
        (p, g) l).1.plan_id = p.plan_id ∧
      (List.foldl
        (fun acc step => ExecutionPlan.add_step acc.1 (static_transform_step rule step) acc.2)
        (p, g) l).1.status = p.status ∧
      (List.foldl
        (fun acc step => ExecutionPlan.add_step acc.1 (static_transform_step rule step) acc.2)
        (p, g) l).1.created_at = p.created_at ∧
      (List.foldl
        (fun acc step => ExecutionPlan.add_step acc.1 (static_transform_step rule step) acc.2)
        (p, g) l).1.task_description = p.task_description ∧
      (List.foldl
        (fun acc step => ExecutionPlan.add_step acc.1 (static_transform_step rule step) acc.2)
        (p, g) l).1.metadata = p.metadata ∧
      (List.foldl
        (fun acc step => ExecutionPlan.add_step acc.1 (static_transform_step rule step) acc.2)
        (p, g) l).1.steps = p.steps ++ l.map (static_transform_step rule) ∧
      (List.foldl
        (fun acc step => ExecutionPlan.add_step acc.1 (static_transform_step rule step) acc.2)
        (p, g) l).1.updated_at =
        (if l.length = 0 then p.updated_at else g.times (g.t + (l.length - 1))) := by
  induction l with
  | nil =>
    intro p g
    simp
  | cons x l ih =>
    intro p g
    have step1 : List.foldl
        (fun acc step => ExecutionPlan.add_step acc.1 (static_transform_step rule step) acc.2)
        (p, g) (x :: l)
      = List.foldl
        (fun acc step => ExecutionPlan.add_step acc.1 (static_transform_step rule step) acc.2)
        ({ p with steps := p.steps ++ [static_transform_step rule x],
                  updated_at := g.times g.t },
         { g with t := g.t + 1 }) l := rfl
    rw [step1]
    obtain ⟨e1, e2, e3, e4, e5, e6, e7⟩ :=
      ih { p with steps := p.steps ++ [static_transform_step rule x],
                  updated_at := g.times g.t }
         { g with t := g.t + 1 }
    refine ⟨e1, e2, e3, e4, e5, ?_, ?_⟩
    · rw [e6]
      simp
    · rw [e7]
      cases l with
      | nil => simp
      | cons y ys =>
        simp only [List.length_cons, if_neg (Nat.succ_ne_zero _)]
        congr 1
        omega

/-- C10: a priority rule's apply never mutates the input plan — the
embedding is a pure function of the plan value — and the plan it returns
when the rule fires is a freshly constructed ExecutionPlan: its plan id is
the next unused uuid from the supply, its status is reset to PENDING, and
its created and updated timestamps are fresh clock readings, none copied
from the input plan, while every step keeps its id, description, tool
binding, parameters, status and start and end times, with only the
priority rewritten for the steps the rule targets.  Shown for
StaticPriorityRule.apply, the cited constructor path. -/
theorem C10_static_apply_fresh_plan (rule : StaticPriorityRule)
    (plan : ExecutionPlan) (g : Gen) :
    (static_apply rule plan g).1.plan_id = g.uuids g.u ∧
    (static_apply rule plan g).1.status = PlanStatus.PENDING ∧
    (static_apply rule plan g).1.created_at = g.times g.t ∧
    (static_apply rule plan g).1.updated_at = g.times (g.t + plan.steps.length) ∧
    (static_apply rule plan g).1.task_description = plan.task_description ∧
    (static_apply rule plan g).1.metadata = plan.metadata ∧
    (static_apply rule plan g).1.steps = plan.steps.map (static_transform_step rule) ∧
    ((static_apply rule plan g).1.steps.map ExecutionStep.step_id
      = plan.steps.map ExecutionStep.step_id) ∧
    ((static_apply rule plan g).1.steps.map ExecutionStep.tool_name
      = plan.steps.map ExecutionStep.tool_name) ∧
    ((static_apply rule plan g).1.steps.map ExecutionStep.parameters
      = plan.steps.map ExecutionStep.parameters) ∧
    ((static_apply rule plan g).1.steps.map ExecutionStep.status
      = plan.steps.map ExecutionStep.status) ∧
    ((static_apply rule plan g).1.steps.map ExecutionStep.start_time
      = plan.steps.map ExecutionStep.start_time) ∧
    ((static_apply rule plan g).1.steps.map ExecutionStep.end_time
      = plan.steps.map ExecutionStep.end_time) ∧
    (∀ step : ExecutionStep, (static_transform_step rule step).priority =
      (if rule.step_ids.contains step.step_id then rule.priority.val
       else step.priority)) := by
  have hfold := static_fold_spec rule plan.steps
    { plan_id := g.uuids g.u, task_description := plan.task_description,
      metadata := plan.metadata, steps := [], status := .PENDING,
      created_at := g.times g.t, updated_at := g.times g.t }
    { g with u := g.u + 1, t := g.t + 1 }
  have happ : static_apply rule plan g = List.foldl
      (fun acc step => ExecutionPlan.add_step acc.1 (static_transform_step rule step) acc.2)
      ({ plan_id := g.uuids g.u, task_description := plan.task_description,
         metadata := plan.metadata, steps := [], status := .PENDING,
         created_at := g.times g.t, updated_at := g.times g.t },
       { g with u := g.u + 1, t := g.t + 1 }) plan.steps := rfl
  obtain ⟨e1, e2, e3, e4, e5, e6, e7⟩ := hfold
  have hsteps : (static_apply rule plan g).1.steps
      = plan.steps.map (static_transform_step rule) := by
    rw [happ, e6]
    simp
  have hproj : ∀ (f : ExecutionStep → Option Int),
      (∀ s, f (static_transform_step rule s) = f s) →
      ((static_apply rule plan g).1.steps.map f = plan.steps.map f) := by
    intro f hf
    rw [hsteps, List.map_map]
    exact List.map_congr_left (fun s _ => hf s)
  refine ⟨by rw [happ, e1], by rw [happ, e2], by rw [happ, e3], ?_, by rw [happ, e4],
    by rw [happ, e5], hsteps, ?_, ?_, ?_, ?_, ?_, ?_, ?_⟩
  · rw [happ, e7]
    cases hps : plan.steps with
    | nil => simp
    | cons y ys =>
      simp only [List.length_cons, if_neg (Nat.succ_ne_zero _)]
      have harith : g.t + 1 + (ys.length + 1 - 1) = g.t + (ys.length + 1) := by omega
      rw [harith]
  · rw [hsteps, List.map_map]
    exact List.map_congr_left (fun s _ => (static_transform_fields rule s).1)
  · rw [hsteps, List.map_map]
    exact List.map_congr_left (fun s _ => (static_transform_fields rule s).2.2.1)
  · rw [hsteps, List.map_map]
    exact List.map_congr_left (fun s _ => (static_transform_fields rule s).2.2.2.1)
  · rw [hsteps, List.map_map]
    exact List.map_congr_left (fun s _ => (static_transform_fields rule s).2.2.2.2.1)
  · rw [hsteps, List.map_map]
    exact List.map_congr_left (fun s _ => (static_transform_fields rule s).2.2.2.2.2.1)
  · rw [hsteps, List.map_map]
    exact List.map_congr_left (fun s _ => (static_transform_fields rule s).2.2.2.2.2.2.1)
  · intro step
    exact (static_transform_fields rule step).2.2.2.2.2.2.2
